import Mathlib

/-!
Shallow embedding of the JWT verification and request-authorization pipeline
of the EndTimes worker backend: rate limiter, origin validator and CORS header
generation, error sanitization, JWKS cache, JWT verification, and the API
request orchestration.  Network fetches and cryptographic signature checks are
modelled as oracle inputs (a fetch outcome value, a Boolean signature-validity
field); everything else is translated directly from the source.
-/

namespace EndTimes

/-- JavaScript truthiness of a nullable string: null/undefined and the empty
string are falsy. -/
def truthy : Option String → Bool
  | none => false
  | some s => !(s == "")

/-- JavaScript `a || d` for a nullable string `a` and default `d`. -/
def jsOr (o : Option String) (d : String) : String :=
  if truthy o then o.getD "" else d

/-! ### Rate limiter (`checkRateLimit`, `cleanupRateLimit`) -/

/-- 1 minute window, in milliseconds. -/
def windowMs : Int := 60 * 1000

/-- 100 requests per minute. -/
def maxRequests : Nat := 100

/-- A record of `rateLimitStorage`: request count and window start (ms). -/
structure RateRecord where
  count : Nat
  windowStart : Int
deriving DecidableEq

/-- The per-key decision logic of `checkRateLimit`: given the stored record for
the client key (if any) and the current time in ms, return whether the call is
allowed together with the record stored for the key afterwards.  Mirrors the
source: no record or `(now - record.windowStart) > windowMs` starts a new
window with count 1 and allows; `record.count >= maxRequests` denies and
leaves the record unchanged; otherwise the count is incremented and the call
is allowed. -/
def rateLimitStep (record : Option RateRecord) (now : Int) : Bool × RateRecord :=
  match record with
  | none => (true, ⟨1, now⟩)
  | some r =>
    if windowMs < now - r.windowStart then (true, ⟨1, now⟩)
    else if maxRequests ≤ r.count then (false, r)
    else (true, ⟨r.count + 1, r.windowStart⟩)

/-- Run a sequence of rate-limiter calls for one client key, returning the list
of allow/deny outcomes and the final stored record. -/
def runCalls : Option RateRecord → List Int → List Bool × Option RateRecord
  | record, [] => ([], record)
  | record, t :: ts =>
    let p := rateLimitStep record t
    let q := runCalls (some p.2) ts
    (p.1 :: q.1, q.2)

/-- `cleanupRateLimit`: remove records whose window age exceeds two window
lengths.  The storage is modelled as an association list from client key to
record. -/
def cleanupRateLimit (storage : List (String × RateRecord)) (now : Int) :
    List (String × RateRecord) :=
  storage.filter fun kr => !(decide (windowMs * 2 < now - kr.2.windowStart))

/-- Map-style update of the association-list storage. -/
def setRecord (storage : List (String × RateRecord)) (key : String)
    (r : RateRecord) : List (String × RateRecord) :=
  (key, r) :: storage.filter fun kr => !(kr.1 == key)

/-- `checkRateLimit` at the storage level: look up the caller's record, run the
opportunistic cleanup when the random sample fires (`doCleanup`), apply the
per-key decision, and store the resulting record.  In the source the denial
branch leaves the map untouched and the increment branch mutates the record in
place; as a key-to-record map both coincide with storing `(rateLimitStep _ _).2`. -/
def checkRateLimit (storage : List (String × RateRecord)) (key : String)
    (now : Int) (doCleanup : Bool) : Bool × List (String × RateRecord) :=
  let record := (storage.find? fun kr => kr.1 == key).map Prod.snd
  let storage1 := if doCleanup then cleanupRateLimit storage now else storage
  let p := rateLimitStep record now
  (p.1, setRecord storage1 key p.2)

/-! ### Origin validator (`validateOrigin`) and CORS (`generateCorsHeaders`) -/

/-- Environment bindings used by the pipeline.  `none` models an absent
binding (JavaScript `undefined`). -/
structure Env where
  AUTH0_DOMAIN : Option String
  AUTH0_AUDIENCE : Option String
  CUSTOM_DOMAIN : Option String
  TMDB_API_KEY : Option String
  ENVIRONMENT : Option String
deriving DecidableEq

/-- A character of the JavaScript regex class `[\w-]`. -/
def wordDash (c : Char) : Bool :=
  (decide ('a' ≤ c) && decide (c ≤ 'z')) ||
  (decide ('A' ≤ c) && decide (c ≤ 'Z')) ||
  (decide ('0' ≤ c) && decide (c ≤ '9')) ||
  c == '_' || c == '-'

/-- The anchored pattern
`https://[\w-]+-end-times\.[\w-]+\.workers\.dev` from the allow-list:
the string decomposes as the literal scheme, a nonempty `[\w-]` run, the
literal `-end-times.`, a nonempty `[\w-]` run, and the literal
`.workers.dev`. -/
def matchesEndTimesPattern (s : String) : Bool :=
  let cs := s.toList
  (List.range (cs.length + 1)).any fun i =>
    (List.range (cs.length + 1)).any fun j =>
      decide (cs.length = 8 + i + 11 + j + 12) &&
      decide (1 ≤ i) && decide (1 ≤ j) &&
      decide (cs.take 8 = "https://".toList) &&
      ((cs.drop 8).take i).all wordDash &&
      decide (((cs.drop (8 + i)).take 11) = "-end-times.".toList) &&
      ((cs.drop (8 + i + 11)).take j).all wordDash &&
      decide (cs.drop (8 + i + 11 + j) = ".workers.dev".toList)

/-- The exact-match entries of the allow-list, in source order: the configured
audience (with its default), the two development origins, and the optional
custom domain. -/
def allowedStringOrigins (env : Env) : List String :=
  [jsOr env.AUTH0_AUDIENCE "https://end-times.jacob-luszcz.workers.dev",
   "http://localhost:8787",
   "http://127.0.0.1:8787"] ++
  (if truthy env.CUSTOM_DOMAIN then ["https://" ++ env.CUSTOM_DOMAIN.getD ""] else [])

/-- `validateOrigin`: a missing (or falsy) origin yields null; otherwise the
origin is echoed back when it matches an exact entry or the subdomain pattern,
and null is returned otherwise. -/
def validateOrigin (origin : Option String) (env : Env) : Option String :=
  if truthy origin then
    let o := origin.getD ""
    if (allowedStringOrigins env).contains o then some o
    else if matchesEndTimesPattern o then some o
    else none
  else none

/-- The variable part of the generated CORS headers.  The three constant
headers (`Access-Control-Allow-Methods`, `Access-Control-Allow-Headers`,
`Access-Control-Max-Age`) are always emitted and carry no information, so they
are left implicit. -/
structure CorsHeaders where
  allowOrigin : Option String
  allowCredentials : Bool
deriving DecidableEq

/-- `generateCorsHeaders`: echo the validated origin and set
`Access-Control-Allow-Credentials: true` exactly when validation succeeded. -/
def generateCorsHeaders (origin : Option String) (env : Env) : CorsHeaders :=
  match validateOrigin origin env with
  | some v => ⟨some v, true⟩
  | none => ⟨none, false⟩

/-! ### Error sanitization (`sanitizeError`) -/

/-- A client-visible error body.  `debug` records whether the development-mode
`debug: true` field is present. -/
structure ErrorBody where
  error : String
  message : String
  debug : Bool
deriving DecidableEq

/-- The production error mapping object `sanitizedMessages`, with the
`|| sanitizedMessages.generic` fallback for unknown types. -/
def sanitizedMessage (t : String) : String :=
  if t == "authentication" then "Authentication failed"
  else if t == "authorization" then "Access denied"
  else if t == "validation" then "Invalid input provided"
  else if t == "external_api" then "External service temporarily unavailable"
  else if t == "rate_limit" then "Too many requests"
  else "Internal server error occurred"

/-- `sanitizeError`: in development mode return the raw message with a debug
marker; in production return the fixed message for the error type. -/
def sanitizeError (message : String) (env : Env) (errorType : String) : ErrorBody :=
  if env.ENVIRONMENT == some "development" then ⟨errorType, message, true⟩
  else ⟨errorType, sanitizedMessage errorType, false⟩

/-! ### Key-set cache (`getJWKS`) -/

/-- A cached JWKS entry: the key set (modelled by its list of key ids) and the
time it was stored. -/
structure CacheEntry where
  data : List String
  timestamp : Int
deriving DecidableEq

/-- 5 minutes TTL, in milliseconds. -/
def jwksTTL : Int := 5 * 60 * 1000

/-- Oracle for the outcome of the network fetch of the JWKS document. -/
inductive FetchResult
  | networkError
  | httpError (status : Nat)
  | okResponse (keys : Option (List String))
deriving DecidableEq

/-- The key set obtained from a fetch outcome, or `none` when the fetch is
treated as a failure: a thrown network error, a non-success response, or a
body without a nonempty `keys` array. -/
def fetchOutcome : FetchResult → Option (List String)
  | .networkError => none
  | .httpError _ => none
  | .okResponse none => none
  | .okResponse (some ks) => if ks.isEmpty then none else some ks

/-- Whether a fetch outcome counts as a fetch failure. -/
def fetchFails (f : FetchResult) : Bool :=
  (fetchOutcome f).isNone

/-- The observable outcome of one `getJWKS` call for a fixed domain:
the returned key set (`none` models the thrown `Failed to fetch JWKS` error),
the cache entry stored for the domain afterwards, and whether a network fetch
was performed. -/
structure JWKSResult where
  result : Option (List String)
  cacheAfter : Option CacheEntry
  didFetch : Bool
deriving DecidableEq

/-- `getJWKS`: return a cached entry younger than the TTL without fetching;
otherwise fetch, and on success cache and return the new set, while on failure
fall back to the stale cached entry if one exists and fail otherwise. -/
def getJWKS (cached : Option CacheEntry) (nowMs : Int) (fetch : FetchResult) :
    JWKSResult :=
  match cached with
  | some c =>
    if nowMs - c.timestamp < jwksTTL then ⟨some c.data, some c, false⟩
    else
      match fetchOutcome fetch with
      | some ks => ⟨some ks, some ⟨ks, nowMs⟩, true⟩
      | none => ⟨some c.data, some c, true⟩
  | none =>
    match fetchOutcome fetch with
    | some ks => ⟨some ks, some ⟨ks, nowMs⟩, true⟩
    | none => ⟨none, none, true⟩

/-! ### JWT verification (`verifyJWT`, `requireAuth`) -/

/-- The `aud` claim: absent, a single string, or an array of strings. -/
inductive AudClaim
  | missing
  | single (s : String)
  | multiple (l : List String)
deriving DecidableEq

/-- The decoded token payload, restricted to the claims the pipeline reads. -/
structure Payload where
  exp : Option Int
  aud : AudClaim
  iss : String
deriving DecidableEq

/-- A token as seen by `verifyJWT`, abstracting the base64url/JSON and
cryptographic layers into oracle fields: the number of dot-separated parts,
whether header and payload decode, the header key id, whether the RSA
signature verifies, and the decoded payload. -/
structure TokenModel where
  partsCount : Nat
  headerDecodes : Bool
  kid : Option String
  signatureValid : Bool
  payloadDecodes : Bool
  payload : Payload
deriving DecidableEq

/-- The errors thrown by `verifyJWT`, one per `throw` site. -/
inductive VerifyError
  | invalidFormat
  | invalidHeaderEncoding
  | noKeyId
  | keySetUnavailable
  | noMatchingKey
  | invalidSignature
  | invalidPayloadEncoding
  | tokenExpired
  | invalidAudience
  | invalidIssuer
deriving DecidableEq

/-- The message of each `verifyJWT` error. -/
def verifyErrorMessage : VerifyError → String
  | .invalidFormat => "Invalid JWT format"
  | .invalidHeaderEncoding => "Invalid JWT header encoding"
  | .noKeyId => "No key ID in JWT header"
  | .keySetUnavailable => "Failed to fetch JWKS"
  | .noMatchingKey => "No matching key found"
  | .invalidSignature => "Invalid signature"
  | .invalidPayloadEncoding => "Invalid JWT payload encoding"
  | .tokenExpired => "Token expired"
  | .invalidAudience => "Invalid audience"
  | .invalidIssuer => "Invalid issuer"

/-- JavaScript template interpolation of a possibly-undefined string. -/
def jsInterp (o : Option String) : String :=
  match o with
  | some s => s
  | none => "undefined"

/-- The audience check: `aud` may be a single string or an array; the expected
audience must be equal to it or contained in it. -/
def audienceOk (expected : String) : AudClaim → Bool
  | .single s => s == expected
  | .multiple l => l.contains expected
  | .missing => false

/-- The expiry rejection test of `verifyJWT`, from
`payload.exp && payload.exp < Date.now() / 1000`: `exp` must be present and
truthy (nonzero) and strictly before the current time.  `exp` is in seconds
and the current time in milliseconds, so the comparison is `exp * 1000 < nowMs`. -/
def expRejected (exp : Option Int) (nowMs : Int) : Bool :=
  match exp with
  | some e => !(e == 0) && decide (e * 1000 < nowMs)
  | none => false

/-- `verifyJWT`: the check sequence of the source, in source order.  `jwks` is
the outcome of `getJWKS env.AUTH0_DOMAIN` (`none` models its thrown error,
which propagates), given as the list of key ids of the fetched key set. -/
def verifyJWT (t : TokenModel) (env : Env) (jwks : Option (List String))
    (nowMs : Int) : Except VerifyError Payload :=
  if !(t.partsCount == 3) then .error .invalidFormat
  else if !t.headerDecodes then .error .invalidHeaderEncoding
  else if !(truthy t.kid) then .error .noKeyId
  else
    match jwks with
    | none => .error .keySetUnavailable
    | some keys =>
      if !(keys.contains (t.kid.getD "")) then .error .noMatchingKey
      else if !t.signatureValid then .error .invalidSignature
      else if !t.payloadDecodes then .error .invalidPayloadEncoding
      else if expRejected t.payload.exp nowMs then .error .tokenExpired
      else if truthy env.AUTH0_AUDIENCE &&
              !(audienceOk (env.AUTH0_AUDIENCE.getD "") t.payload.aud) then
        .error .invalidAudience
      else if !(t.payload.iss == "https://" ++ jsInterp env.AUTH0_DOMAIN ++ "/") then
        .error .invalidIssuer
      else .ok t.payload

/-- The errors of `requireAuth`: its own missing-header error, or an error
propagated from `verifyJWT`. -/
inductive AuthError
  | missingAuthHeader
  | verify (e : VerifyError)
deriving DecidableEq

/-- The message of each `requireAuth` error. -/
def authErrorMessage : AuthError → String
  | .missingAuthHeader => "Missing or invalid authorization header"
  | .verify e => verifyErrorMessage e

/-- `requireAuth`: reject a missing `Authorization` header or one that does
not start with `Bearer `; otherwise verify the carried token. -/
def requireAuth (authHeader : Option String) (t : TokenModel) (env : Env)
    (jwks : Option (List String)) (nowMs : Int) : Except AuthError Payload :=
  if !(truthy authHeader) || !((authHeader.getD "").startsWith "Bearer ") then
    .error .missingAuthHeader
  else
    match verifyJWT t env jwks nowMs with
    | .error e => .error (.verify e)
    | .ok p => .ok p

/-! ### Request authorizer (`handleApiRequest`) -/

/-- An incoming API request.  `token` is the decoded view of the bearer token
carried by `authHeader` (meaningful only when the header is a Bearer header). -/
structure ApiRequest where
  method : String
  path : String
  origin : Option String
  authHeader : Option String
  token : TokenModel
deriving DecidableEq

/-- The response bodies produced directly by `handleApiRequest`. -/
inductive Body
  | empty
  | json (error message : String)
  | jsonErr (error : String)
  | sanitized (e : ErrorBody)
deriving DecidableEq

/-- A response produced directly by `handleApiRequest`: status, CORS headers
(`none` when they are deliberately omitted), and body. -/
structure ApiResponse where
  status : Nat
  cors : Option CorsHeaders
  body : Body
deriving DecidableEq

/-- The outcome of `handleApiRequest`: a response it builds itself, or
delegation to a route handler (whose internals are outside the authorization
core) with the CORS headers and the authenticated user passed along. -/
inductive ApiOutcome
  | response (r : ApiResponse)
  | delegated (route : String) (cors : CorsHeaders) (user : Option Payload)
deriving DecidableEq

/-- The routes that require authentication. -/
def isProtectedPath (p : String) : Bool :=
  p == "/api/search" || p.startsWith "/api/movie/" || p == "/api/user"

/-- The route dispatch at the end of `handleApiRequest`. -/
def dispatch (req : ApiRequest) (cors : CorsHeaders) (user : Option Payload) :
    ApiOutcome :=
  if req.path == "/api/search" then .delegated "search" cors user
  else if req.path.startsWith "/api/movie/" then .delegated "movieDetails" cors user
  else if req.path == "/api/user" then .delegated "userInfo" cors user
  else if req.path == "/api/config/auth0" then .delegated "auth0Config" cors user
  else .response ⟨404, some cors, .jsonErr "Unknown API endpoint"⟩

/-- `handleApiRequest`, in source order: compute CORS headers; short-circuit
`OPTIONS` preflights; reject disallowed origins with 403 and no CORS headers;
reject missing configuration with 500; on protected routes check the rate
limiter (429) and authentication (401 with sanitized body); then dispatch.
`rateLimitOK` is the outcome of `checkRateLimit` for this request's client. -/
def handleApiRequest (req : ApiRequest) (env : Env) (jwks : Option (List String))
    (nowMs : Int) (rateLimitOK : Bool) : ApiOutcome :=
  let cors := generateCorsHeaders req.origin env
  if req.method == "OPTIONS" then
    .response ⟨200, some cors, .empty⟩
  else if truthy req.origin && cors.allowOrigin.isNone then
    .response ⟨403, none,
      .json "Origin not allowed"
        "Cross-origin requests from this domain are not permitted"⟩
  else if !(truthy env.AUTH0_DOMAIN) || !(truthy env.AUTH0_AUDIENCE) then
    .response ⟨500, some cors, .jsonErr "Authentication not configured"⟩
  else if !(truthy env.TMDB_API_KEY) then
    .response ⟨500, some cors, .jsonErr "TMDB API key not configured"⟩
  else if isProtectedPath req.path then
    if !rateLimitOK then
      .response ⟨429, some cors,
        .json "Rate limit exceeded"
          "Too many authentication requests. Please try again later."⟩
    else
      match requireAuth req.authHeader req.token env jwks nowMs with
      | .error e =>
        .response ⟨401, some cors,
          .sanitized (sanitizeError (authErrorMessage e) env "authentication")⟩
      | .ok p => dispatch req cors (some p)
  else dispatch req cors none

/-! ### Spec-side predicates and concrete instances used in the theorems -/

/-- Every stored rate-limit record has a count between 1 and 100. -/
def storageOK (storage : List (String × RateRecord)) : Bool :=
  storage.all fun kr => decide (1 ≤ kr.2.count) && decide (kr.2.count ≤ 100)

/-- A configured environment: Auth0 domain and audience set, TMDB key set,
no custom domain, production mode. -/
def envA : Env :=
  ⟨some "tenant.auth0.com", some "https://end-times.jacob-luszcz.workers.dev",
   none, some "tmdb-key", none⟩

/-- A payload whose `exp` (1 second after the epoch) lies in the past for any
current time beyond 1000 ms, with matching audience and issuer for `envA`. -/
def payA : Payload :=
  ⟨some 1, .single "https://end-times.jacob-luszcz.workers.dev",
   "https://tenant.auth0.com/"⟩

/-- A well-formed token carrying `payA` with a valid signature under key `k1`. -/
def tokA : TokenModel := ⟨3, true, some "k1", true, true, payA⟩

/-- The same token with an invalid signature. -/
def tokBadSig : TokenModel := ⟨3, true, some "k1", false, true, payA⟩

/-- An `OPTIONS` request from a disallowed origin to a protected route. -/
def reqOptionsEvil : ApiRequest :=
  ⟨"OPTIONS", "/api/search", some "https://evil.example.com", none, tokA⟩

/-- A `GET` request from a disallowed origin to a protected route. -/
def reqGetEvil : ApiRequest :=
  ⟨"GET", "/api/search", some "https://evil.example.com", none, tokA⟩

/-- A `GET` request to a protected route with no `Origin` header and no
`Authorization` header. -/
def reqNoAuth : ApiRequest := ⟨"GET", "/api/search", none, none, tokA⟩

end EndTimes

namespace EndTimes

/-! ## Claim C1: expired tokens and the TokenExpired error -/

/-- C1 counterexample: a token whose payload `exp` (1 second after the epoch)
is in the past — the source's own expiry test fires on it at current time
1,000,000 ms — but whose signature is invalid fails with the
invalid-signature error, not with TokenExpired: the signature is checked
before expiry. -/
theorem expired_bad_signature_counterexample :
    verifyJWT tokBadSig envA (some ["k1"]) 1000000
      = .error .invalidSignature ∧
    expRejected payA.exp 1000000 = true ∧
    VerifyError.invalidSignature ≠ VerifyError.tokenExpired :=
  ⟨rfl, rfl, by decide⟩

/-- C1 amended: a token whose decoded payload has a truthy `exp` in the past
fails with TokenExpired provided the earlier checks pass — in particular the
signature must be valid, since the signature check precedes the expiry
check. -/
theorem expired_token_fails_after_valid_signature (t : TokenModel) (env : Env)
    (keys : List String) (nowMs e : Int)
    (h3 : t.partsCount = 3) (hh : t.headerDecodes = true)
    (hk : truthy t.kid = true) (hkey : keys.contains (t.kid.getD "") = true)
    (hsig : t.signatureValid = true) (hp : t.payloadDecodes = true)
    (hexp : t.payload.exp = some e) (hne : e ≠ 0) (hpast : e * 1000 < nowMs) :
    verifyJWT t env (some keys) nowMs = .error .tokenExpired := by
  have hrej : expRejected t.payload.exp nowMs = true := by
    simp [expRejected, hexp, hne, hpast]
  have hkey' : t.kid.getD "" ∈ keys := by simpa using hkey
  simp [verifyJWT, h3, hh, hk, hkey', hsig, hp, hrej]

/-- Witness for `expired_token_fails_after_valid_signature` on the concrete
valid-signature token `tokA`. -/
theorem expired_token_fails_after_valid_signature_witness :
    verifyJWT tokA envA (some ["k1"]) 1000000 = .error .tokenExpired :=
  expired_token_fails_after_valid_signature tokA envA ["k1"] 1000000 1
    rfl rfl (by decide) (by decide) rfl rfl rfl (by decide) (by decide)

/-! ## Claim C2: accepted tokens and strict expiry -/

/-- C2 counterexample: a token whose `exp` equals the current time (1 second,
at 1000 ms) is accepted by `verifyJWT`, so `exp` need not be strictly greater
than the current time. -/
theorem exp_equal_now_accepted_counterexample :
    verifyJWT tokA envA (some ["k1"]) 1000 = .ok payA ∧
    payA.exp = some 1 ∧ (1 : Int) * 1000 ≤ 1000 :=
  ⟨rfl, rfl, by decide⟩

/-- C2 amended: every token `verifyJWT` accepts whose payload carries a truthy
`exp` claim has `exp` at or after the current time (the code rejects only a
strictly past `exp`). -/
theorem accepted_token_exp_not_past (t : TokenModel) (env : Env)
    (jwks : Option (List String)) (nowMs : Int) (p : Payload) (e : Int)
    (hok : verifyJWT t env jwks nowMs = .ok p)
    (hexp : p.exp = some e) (hne : e ≠ 0) :
    nowMs ≤ e * 1000 := by
  by_contra hlt
  push_neg at hlt
  simp only [verifyJWT] at hok
  repeat' split at hok
  all_goals simp_all [expRejected]

/-- Witness for `accepted_token_exp_not_past` at the boundary token. -/
theorem accepted_token_exp_not_past_witness :
    verifyJWT tokA envA (some ["k1"]) 1000 = .ok payA ∧ (1000 : Int) ≤ 1 * 1000 :=
  ⟨rfl,
   accepted_token_exp_not_past tokA envA (some ["k1"]) 1000 payA 1
     rfl rfl (by decide)⟩

/-! ## Claim C3: origin rejection versus the preflight short-circuit -/

/-- C3 counterexample: an `OPTIONS` request from a disallowed origin is
answered by the preflight short-circuit (status 200 with the computed CORS
headers and no body), not by the 403 rejection — the preflight branch runs
before the origin rejection. -/
theorem preflight_before_origin_rejection_counterexample :
    handleApiRequest reqOptionsEvil envA (some ["k1"]) 0 true
      = .response ⟨200, some ⟨none, false⟩, .empty⟩ ∧
    validateOrigin (some "https://evil.example.com") envA = none ∧
    (200 : Nat) ≠ 403 := by
  decide

/-- C3 amended: for every non-`OPTIONS` request carrying a truthy `Origin`
header for which no allowed origin resolves, the authorizer rejects with 403
and no CORS headers before any other handling (configuration, rate limiting,
authentication); `OPTIONS` requests are instead short-circuited first by the
preflight branch. -/
theorem origin_rejection_non_preflight (req : ApiRequest) (env : Env)
    (jwks : Option (List String)) (nowMs : Int) (rl : Bool)
    (hm : req.method ≠ "OPTIONS")
    (ho : truthy req.origin = true)
    (hv : (generateCorsHeaders req.origin env).allowOrigin = none) :
    handleApiRequest req env jwks nowMs rl =
      .response ⟨403, none, .json "Origin not allowed"
        "Cross-origin requests from this domain are not permitted"⟩ := by
  simp [handleApiRequest, hm, ho, hv]

/-- Witness for `origin_rejection_non_preflight` on a concrete `GET` request
from a disallowed origin. -/
theorem origin_rejection_non_preflight_witness :
    handleApiRequest reqGetEvil envA none 0 true =
      .response ⟨403, none, .json "Origin not allowed"
        "Cross-origin requests from this domain are not permitted"⟩ :=
  origin_rejection_non_preflight reqGetEvil envA none 0 true
    (by decide) (by decide) (by decide)

/-! ## Claim C6: missing Authorization header yields a sanitized 401 -/

/-- C6: a request to a protected route whose `Authorization` header is missing
or does not start with `Bearer ` is answered, in production mode (with valid
configuration, an acceptable origin, and the rate limit not exceeded), with
status 401 and the sanitized body carrying error `authentication` and the
fixed message `Authentication failed`; the raw internal message is not the one
returned. -/
theorem missing_auth_production_401 (req : ApiRequest) (env : Env)
    (jwks : Option (List String)) (nowMs : Int)
    (hprod : env.ENVIRONMENT ≠ some "development")
    (hm : req.method ≠ "OPTIONS")
    (hco : ¬ (truthy req.origin = true ∧
      (generateCorsHeaders req.origin env).allowOrigin = none))
    (hd : truthy env.AUTH0_DOMAIN = true)
    (ha : truthy env.AUTH0_AUDIENCE = true)
    (htm : truthy env.TMDB_API_KEY = true)
    (hpp : isProtectedPath req.path = true)
    (hauth : truthy req.authHeader = false ∨
      (req.authHeader.getD "").startsWith "Bearer " = false) :
    handleApiRequest req env jwks nowMs true =
      .response ⟨401, some (generateCorsHeaders req.origin env),
        .sanitized ⟨"authentication", "Authentication failed", false⟩⟩ ∧
    authErrorMessage .missingAuthHeader ≠ "Authentication failed" := by
  constructor
  · have hra : requireAuth req.authHeader req.token env jwks nowMs
        = .error .missingAuthHeader := by
      rcases hauth with h | h <;> simp [requireAuth, h]
    have hsan : sanitizeError (authErrorMessage .missingAuthHeader) env "authentication"
        = ⟨"authentication", "Authentication failed", false⟩ := by
      simp [sanitizeError, hprod, sanitizedMessage]
    have hcond : (truthy req.origin &&
        (generateCorsHeaders req.origin env).allowOrigin.isNone) = false := by
      by_cases h1 : truthy req.origin = true
      · have h2 : (generateCorsHeaders req.origin env).allowOrigin ≠ none :=
          fun hn => hco ⟨h1, hn⟩
        cases hc : (generateCorsHeaders req.origin env).allowOrigin with
        | none => exact absurd hc h2
        | some v => simp [h1, hc]
      · have h1' : truthy req.origin = false := Bool.eq_false_iff.mpr h1
        simp [h1']
    simp [handleApiRequest, hm, hcond, hd, ha, htm, hpp, hra, hsan]
  · decide

/-- Witness for `missing_auth_production_401` on a concrete header-less
request to `/api/search` in the configured production environment. -/
theorem missing_auth_production_401_witness :
    handleApiRequest reqNoAuth envA none 0 true =
      .response ⟨401, some (generateCorsHeaders none envA),
        .sanitized ⟨"authentication", "Authentication failed", false⟩⟩ ∧
    authErrorMessage .missingAuthHeader ≠ "Authentication failed" :=
  missing_auth_production_401 reqNoAuth envA none 0
    (by decide) (by decide) (by decide) (by decide) (by decide) (by decide)
    (by decide) (Or.inl (by decide))

/-! ## Claim C5: rate-limiter window reset condition -/

/-- C5 counterexample: at a window age of exactly 60 seconds (age ≥ 60 s, as
the claim demands) with a full window, the limiter does not start a fresh
window with count 1 but denies the call and leaves the record unchanged. -/
theorem fresh_window_at_sixty_seconds_counterexample :
    rateLimitStep (some ⟨100, 0⟩) 60000 = (false, ⟨100, 0⟩) ∧
    (false, RateRecord.mk 100 0) ≠ (true, RateRecord.mk 1 60000) := by
  decide

/-- C5 amended: when no record exists, or the record's window age is strictly
greater than 60 seconds, the limiter starts a new window with count 1 and
allows the call. -/
theorem fresh_window_after_expiry (record : Option RateRecord) (now : Int)
    (h : record = none ∨ ∃ r, record = some r ∧ windowMs < now - r.windowStart) :
    rateLimitStep record now = (true, ⟨1, now⟩) := by
  rcases h with h | ⟨r, hr, hgt⟩
  · subst h; rfl
  · subst hr
    simp [rateLimitStep, hgt]

/-- Witness for `fresh_window_after_expiry` at a record 61 seconds old. -/
theorem fresh_window_after_expiry_witness :
    rateLimitStep (some ⟨50, 0⟩) 61000 = (true, ⟨1, 61000⟩) :=
  fresh_window_after_expiry (some ⟨50, 0⟩) 61000
    (Or.inr ⟨⟨50, 0⟩, rfl, by decide⟩)

/-! ## Claim C9: rate-limit record counts stay in 1..100 -/

/-- C9: if every record in the storage has a count between 1 and 100, this
still holds after any `checkRateLimit` call (including its opportunistic
cleanup): records are created with count 1 and incremented only below 100. -/
theorem rate_record_count_bounds (storage : List (String × RateRecord))
    (key : String) (now : Int) (doCleanup : Bool)
    (h : storageOK storage = true) :
    storageOK (checkRateLimit storage key now doCleanup).2 = true := by
  simp only [storageOK, List.all_eq_true, Bool.and_eq_true, decide_eq_true_eq] at h ⊢
  intro kr hkr
  simp only [checkRateLimit, setRecord] at hkr
  rcases List.mem_cons.mp hkr with hk | hk
  · subst hk
    rcases hrec : storage.find? (fun kr => kr.1 == key) with _ | p
    · simp [hrec, rateLimitStep]
    · have hmem : p ∈ storage := List.mem_of_find?_eq_some hrec
      have hp := h p hmem
      simp only [hrec, Option.map_some', rateLimitStep]
      by_cases h1 : windowMs < now - p.2.windowStart
      · simp [h1]
      · by_cases h2 : maxRequests ≤ p.2.count
        · simp only [if_neg h1, if_pos h2]
          exact hp
        · have hlt : p.2.count < 100 := by
            simpa [maxRequests] using h2
          simp only [if_neg h1, if_neg h2]
          show 1 ≤ p.2.count + 1 ∧ p.2.count + 1 ≤ 100
          omega
  · have h1 : kr ∈ (if doCleanup then cleanupRateLimit storage now else storage) :=
      List.mem_of_mem_filter hk
    have h2 : kr ∈ storage := by
      cases doCleanup with
      | false => simpa using h1
      | true =>
        simp only [if_pos, cleanupRateLimit] at h1
        exact List.mem_of_mem_filter h1
    exact h kr h2

/-- Witness for `rate_record_count_bounds` on the empty storage. -/
theorem rate_record_count_bounds_witness :
    storageOK (checkRateLimit [] "client" 0 false).2 = true :=
  rate_record_count_bounds [] "client" 0 false rfl

/-! ## Claim C4: 100 calls per window, 101st denied, fresh window after 61 s -/

/-- Running calls over an appended list splits into the two runs. -/
theorem runCalls_append (r : Option RateRecord) (xs ys : List Int) :
    runCalls r (xs ++ ys) =
      ((runCalls r xs).1 ++ (runCalls (runCalls r xs).2 ys).1,
       (runCalls (runCalls r xs).2 ys).2) := by
  induction xs generalizing r with
  | nil => simp [runCalls]
  | cons t ts ih => simp [runCalls, ih]

/-- While the window is not exceeded in time and the count stays at or below
the limit, every call is allowed and the count advances by the number of
calls. -/
theorem runCalls_within_window (ts : List Int) (c : Nat) (t0 : Int)
    (hts : ∀ t ∈ ts, t - t0 ≤ windowMs) (hc : 1 ≤ c)
    (hmax : c + ts.length ≤ maxRequests) :
    runCalls (some ⟨c, t0⟩) ts =
      (List.replicate ts.length true, some ⟨c + ts.length, t0⟩) := by
  induction ts generalizing c with
  | nil => simp [runCalls]
  | cons t ts ih =>
    have hnr : ¬ windowMs < t - t0 := not_lt.mpr (hts t (by simp))
    have hcnt : ¬ maxRequests ≤ c := by
      simp only [List.length_cons, maxRequests] at hmax ⊢
      omega
    have hstep : rateLimitStep (some ⟨c, t0⟩) t = (true, ⟨c + 1, t0⟩) := by
      simp [rateLimitStep, hnr, hcnt]
    have hrest := ih (c + 1) (fun u hu => hts u (by simp [hu])) (by omega)
      (by simp only [List.length_cons] at hmax; omega)
    have harith : c + 1 + ts.length = c + (ts.length + 1) := by omega
    simp only [runCalls, hstep, hrest, List.length_cons, List.replicate_succ, harith]

/-- C4: starting with no record, 101 calls whose times all lie within 60
seconds of the first are answered with 100 allows followed by a denial; and a
call 61 seconds after the start of a window is allowed as the start of a fresh
window with count 1. -/
theorem rate_limit_hundred_per_window (t0 : Int) (mid : List Int) (tl : Int)
    (c : Nat) (w tn : Int) (hlen : mid.length = 99)
    (hmid : ∀ t ∈ mid, t0 ≤ t ∧ t - t0 ≤ windowMs)
    (hl1 : t0 ≤ tl) (hl2 : tl - t0 ≤ windowMs)
    (hfresh : tn - w = 61 * 1000) :
    (runCalls none (t0 :: (mid ++ [tl]))).1 = List.replicate 100 true ++ [false] ∧
    rateLimitStep (some ⟨c, w⟩) tn = (true, ⟨1, tn⟩) := by
  constructor
  · have hmidrun := runCalls_within_window mid 1 t0 (fun t ht => (hmid t ht).2)
      le_rfl (by simp [maxRequests, hlen])
    rw [hlen] at hmidrun
    have hnr : ¬ windowMs < tl - t0 := not_lt.mpr hl2
    have hlast : runCalls (some ⟨1 + 99, t0⟩) [tl] = ([false], some ⟨1 + 99, t0⟩) := by
      have hge : maxRequests ≤ 1 + 99 := by decide
      simp [runCalls, rateLimitStep, hnr, hge]
    simp only [runCalls, rateLimitStep, runCalls_append, hmidrun, hlast]
    rw [if_neg hnr, if_pos (by decide : maxRequests ≤ 1 + 99)]
    rfl
  · have hgt : windowMs < tn - w := by rw [hfresh]; decide
    simp [rateLimitStep, hgt]

/-- Witness for `rate_limit_hundred_per_window`: 101 simultaneous calls, then
a call 61 seconds after a full window started. -/
theorem rate_limit_hundred_per_window_witness :
    (runCalls none ((0 : Int) :: (List.replicate 99 (0 : Int) ++ [0]))).1
      = List.replicate 100 true ++ [false] ∧
    rateLimitStep (some ⟨100, 0⟩) 61000 = (true, ⟨1, 61000⟩) :=
  rate_limit_hundred_per_window 0 (List.replicate 99 0) 0 100 0 61000
    (by simp)
    (by
      intro t ht
      have h := List.eq_of_mem_replicate ht
      subst h
      exact ⟨le_rfl, by decide⟩)
    le_rfl (by decide) (by decide)

/-! ## Claim C10: credentials header iff validated origin -/

/-- C10: the generated CORS headers carry
`Access-Control-Allow-Credentials: true` exactly when they carry an
`Access-Control-Allow-Origin` header echoing an origin accepted by the origin
validator; in particular an absent or disallowed origin never receives the
credentials header. -/
theorem cors_credentials_iff_validated_origin (origin : Option String) (env : Env) :
    (generateCorsHeaders origin env).allowCredentials = true ↔
      ∃ v, (generateCorsHeaders origin env).allowOrigin = some v ∧
        validateOrigin origin env = some v := by
  cases h : validateOrigin origin env <;> simp [generateCorsHeaders, h]

/-! ## Claim C7: key-set fetch failure falls back to the cache -/

/-- C7: when the fetch outcome counts as a failure (network error, non-success
response, or missing/empty key collection), `getJWKS` returns the cached key
set when a cached entry exists — stale or not — and fails (no key set) when
none exists. -/
theorem keyset_failure_fallback (cached : Option CacheEntry) (nowMs : Int)
    (fetch : FetchResult) (hfail : fetchFails fetch = true) :
    (getJWKS cached nowMs fetch).result = cached.map CacheEntry.data := by
  have hout : fetchOutcome fetch = none := by
    simpa [fetchFails, Option.isNone_iff_eq_none] using hfail
  cases cached with
  | none => simp [getJWKS, hout]
  | some c =>
    by_cases hfresh : nowMs - c.timestamp < jwksTTL
    · simp [getJWKS, hfresh]
    · simp [getJWKS, hfresh, hout]

/-- Witness for `keyset_failure_fallback`: a stale entry is served on a network
error, and with an empty cache the operation fails. -/
theorem keyset_failure_fallback_witness :
    (getJWKS (some ⟨["kid1"], 0⟩) 1000000 .networkError).result = some ["kid1"] ∧
    (getJWKS none 0 .networkError).result = none := by
  constructor
  · simpa using keyset_failure_fallback (some ⟨["kid1"], 0⟩) 1000000 .networkError rfl
  · simpa using keyset_failure_fallback none 0 .networkError rfl

/-! ## Claim C8: one fetch per TTL window -/

/-- C8: starting from an empty cache, a successful call fetches once and
caches; a second call within the 300-second TTL performs no fetch, returns the
same key set, and leaves the cache unchanged — two consecutive calls within
the TTL window perform exactly one network fetch. -/
theorem keyset_cache_single_fetch (now1 now2 : Int) (ks : List String)
    (f2 : FetchResult) (hne : ks ≠ []) (httl : now2 - now1 < jwksTTL) :
    (getJWKS none now1 (.okResponse (some ks))).didFetch = true ∧
    (getJWKS none now1 (.okResponse (some ks))).result = some ks ∧
    (getJWKS (getJWKS none now1 (.okResponse (some ks))).cacheAfter now2 f2).didFetch
      = false ∧
    (getJWKS (getJWKS none now1 (.okResponse (some ks))).cacheAfter now2 f2).result
      = some ks ∧
    (getJWKS (getJWKS none now1 (.okResponse (some ks))).cacheAfter now2 f2).cacheAfter
      = (getJWKS none now1 (.okResponse (some ks))).cacheAfter := by
  have hemp : ks.isEmpty = false := by
    cases ks with
    | nil => exact absurd rfl hne
    | cons a l => rfl
  have h1 : getJWKS none now1 (.okResponse (some ks)) = ⟨some ks, some ⟨ks, now1⟩, true⟩ := by
    simp [getJWKS, fetchOutcome, hemp]
  rw [h1]
  simp [getJWKS, httl]

/-- Witness for `keyset_cache_single_fetch` with a one-key set and calls one
second apart. -/
theorem keyset_cache_single_fetch_witness :
    (getJWKS none 0 (.okResponse (some ["kid1"]))).didFetch = true ∧
    (getJWKS none 0 (.okResponse (some ["kid1"]))).result = some ["kid1"] ∧
    (getJWKS (getJWKS none 0 (.okResponse (some ["kid1"]))).cacheAfter 1000
        .networkError).didFetch = false ∧
    (getJWKS (getJWKS none 0 (.okResponse (some ["kid1"]))).cacheAfter 1000
        .networkError).result = some ["kid1"] ∧
    (getJWKS (getJWKS none 0 (.okResponse (some ["kid1"]))).cacheAfter 1000
        .networkError).cacheAfter
      = (getJWKS none 0 (.okResponse (some ["kid1"]))).cacheAfter :=
  keyset_cache_single_fetch 0 1000 ["kid1"] .networkError (by decide) (by decide)

end EndTimes
